import Mathlib

/-!
Verification development for the Employee Performance Dashboard.

The program is a small read-aggregate-render web application. Two near-duplicate
front ends exist: a Flask app (`main.py`) and a FastHTML app (`dashboard.py`).
Both read four relational tables (`employee`, `team`, `employee_events`, `notes`),
aggregate event counts, run a pre-trained classifier on two summed features, bucket
the resulting probability into Low/Medium/High risk tiers, and render a fragment.

The embedding below models the database as lists of rows, SQL queries as
filter/map/sort/sum over those lists, SQLite dates as integers (day numbers, so
that the string comparison of ISO dates coincides with integer comparison), the
pickled classifier as an optional function from the two integer features to a
rational probability, and Python floats as rationals. Row lookups by primary key
(`JOIN ... ON e.team_id = t.id`, `WHERE e.id = ?`) are modelled with `List.find?`,
which matches SQL joins under the key-uniqueness the store enforces.
-/

/-- A row of the `employee` table: id, name, team_id. -/
structure EmployeeRow where
  id : Int
  name : String
  team_id : Int
deriving DecidableEq

/-- A row of the `team` table: id, name, shift, manager. -/
structure TeamRow where
  id : Int
  name : String
  shift : String
  manager : String
deriving DecidableEq

/-- A row of the `employee_events` table. `event_date` is a day number. -/
structure EventRow where
  employee_id : Int
  event_date : Int
  positive_events : Int
  negative_events : Int
deriving DecidableEq

/-- A row of the `notes` table. `created_at` is a timestamp (integer). -/
structure NoteRow where
  employee_id : Int
  note : String
  created_at : Int
deriving DecidableEq

/-- The relational database backing both front ends. -/
structure Database where
  employee : List EmployeeRow
  team : List TeamRow
  employee_events : List EventRow
  notes : List NoteRow
deriving DecidableEq

/-- One row of the result set of `get_employee_events`: the SELECT list is
`event_date, positive_events, negative_events, (positive_events - negative_events)
as net_events`. -/
structure EventOut where
  event_date : Int
  positive_events : Int
  negative_events : Int
  net_events : Int
deriving DecidableEq

/-- `get_employee_events(employee_id, days)` from `main.py` (identical in
`dashboard.py`): selects the employee's rows of `employee_events` whose
`event_date >= date('now','-days days')` — i.e. date at least `today - days` —
ordered by `event_date`. `today` stands for SQLite's `date('now')`. -/
def get_employee_events (db : Database) (today : Int) (employee_id : Int)
    (days : Int) : List EventOut :=
  List.insertionSort (fun a b : EventOut => a.event_date ≤ b.event_date)
    ((db.employee_events.filter
        (fun e => e.employee_id == employee_id && decide (today - days ≤ e.event_date))).map
      (fun e =>
        { event_date := e.event_date
          positive_events := e.positive_events
          negative_events := e.negative_events
          net_events := e.positive_events - e.negative_events }))

/-- The single row `get_employee_summary` produces (when non-empty): names from
the joined `employee`/`team` rows and SUM/AVG aggregates over the employee's
`employee_events` rows. -/
structure Summary where
  name : String
  team_name : String
  shift : String
  manager : String
  total_positive : Int
  total_negative : Int
  avg_positive : ℚ
  avg_negative : ℚ
deriving DecidableEq

/-- `get_employee_summary(employee_id)` from `main.py`: joins `employee` to
`team` on `team_id` and (INNER) to `employee_events` on the employee id, filters
`WHERE e.id = ?`, and aggregates SUM/AVG of positive and negative counts. The
query has NO date window. The INNER JOIN means the result is empty — hence
`None` — when the employee row is missing, its team row is missing, or the
employee has no `employee_events` rows. -/
def get_employee_summary (db : Database) (employee_id : Int) : Option Summary :=
  match db.employee.find? (fun e => e.id == employee_id) with
  | none => none
  | some e =>
    match db.team.find? (fun t => t.id == e.team_id) with
    | none => none
    | some t =>
      if (db.employee_events.filter (fun ev => ev.employee_id == employee_id)).isEmpty
      then none
      else some
        { name := e.name
          team_name := t.name
          shift := t.shift
          manager := t.manager
          total_positive :=
            ((db.employee_events.filter (fun ev => ev.employee_id == employee_id)).map
              (fun v => v.positive_events)).sum
          total_negative :=
            ((db.employee_events.filter (fun ev => ev.employee_id == employee_id)).map
              (fun v => v.negative_events)).sum
          avg_positive :=
            (((db.employee_events.filter (fun ev => ev.employee_id == employee_id)).map
                (fun v => (v.positive_events : ℚ))).sum) /
              (((db.employee_events.filter (fun ev => ev.employee_id == employee_id)).length : ℚ))
          avg_negative :=
            (((db.employee_events.filter (fun ev => ev.employee_id == employee_id)).map
                (fun v => (v.negative_events : ℚ))).sum) /
              (((db.employee_events.filter (fun ev => ev.employee_id == employee_id)).length : ℚ)) }

/-- One row of the result set of `get_employee_notes`. -/
structure NoteOut where
  note : String
  created_at : Int
deriving DecidableEq

/-- `get_employee_notes(employee_id)`: the employee's rows of `notes`,
`ORDER BY created_at DESC`. -/
def get_employee_notes (db : Database) (employee_id : Int) : List NoteOut :=
  List.insertionSort (fun a b : NoteOut => b.created_at ≤ a.created_at)
    ((db.notes.filter (fun n => n.employee_id == employee_id)).map
      (fun n => { note := n.note, created_at := n.created_at }))

/-- The pickled classifier, reduced to its use site: `predict_proba` applied to
the feature vector `[[total_positive, total_negative]]`, keeping column 1 — a
function from the two summed features to a probability. -/
def Model : Type := Int → Int → ℚ

/-- `predict_recruitment_risk(employee_id)` from `main.py`: `None` when
`load_model()` returned `None` (missing model file) or when the summary is
`None`; otherwise the model's probability on `(total_positive, total_negative)`. -/
def predict_recruitment_risk (model : Option Model) (db : Database)
    (employee_id : Int) : Option ℚ :=
  match model with
  | none => none
  | some m =>
    match get_employee_summary db employee_id with
    | none => none
    | some s => some (m s.total_positive s.total_negative)

/-- `create_performance_chart(employee_id, days)`: `None` when the windowed
event query is empty, otherwise a chart plotting exactly those rows (the chart
image is modelled by the data series it plots). -/
def create_performance_chart (db : Database) (today : Int) (employee_id : Int)
    (days : Int) : Option (List EventOut) :=
  let events := get_employee_events db today employee_id days
  if events.isEmpty then none else some events

/-- The risk assessment block of `employee_dashboard` (both front ends):
`risk_level`/`risk_color` default to `("Low","success")`; only when `risk_prob`
is truthy (present AND nonzero) are the `> 0.7` and `> 0.4` comparisons made. -/
def riskAssessment (risk_prob : Option ℚ) : String × String :=
  match risk_prob with
  | none => ("Low", "success")
  | some p =>
    if p ≠ 0 then
      if p > 7/10 then ("High", "danger")
      else if p > 4/10 then ("Medium", "warning")
      else ("Low", "success")
    else ("Low", "success")

/-- Decimal rendering with one fractional digit, for the `"%.1f"` /
`"{:.1%}"` format of the probability display. -/
def formatFixed1 (x : ℚ) : String :=
  let n : Int := Int.floor (x * 10 + 1/2)
  let sign := if n < 0 then "-" else ""
  let m := n.natAbs
  sign ++ toString (m / 10) ++ "." ++ toString (m % 10)

/-- The probability line of the dashboard template:
`{{ "%.1f%%" % (risk_prob * 100) if risk_prob else "N/A" }}` in `main.py`
(`f"{risk_prob:.1%}" if risk_prob else "N/A"` in `dashboard.py`): Python
truthiness, so `None` AND the exact probability `0.0` both render `"N/A"`. -/
def probDisplay (risk_prob : Option ℚ) : String :=
  match risk_prob with
  | none => "N/A"
  | some p => if p ≠ 0 then formatFixed1 (p * 100) ++ "%" else "N/A"

/-- The notes section of the templates shows `notes[:5]`. -/
def displayedNotes (notes : List NoteOut) : List NoteOut :=
  notes.take 5

/-- The possible renderings of the `/employee_dashboard` fragment, following the
branches of the Flask handler and of `EMPLOYEE_DASHBOARD_TEMPLATE`:
"Please select an employee", "Employee not found", or the full dashboard. The
`notFound` and `pleaseSelect` branches return before notes retrieval, inference
and chart creation, so those constructors carry no such data. -/
inductive DashboardResponse where
  | pleaseSelect : DashboardResponse
  | notFound (employee_id : Int) : DashboardResponse
  | dashboard (employee_id : Int) (summary : Summary) (notes : List NoteOut)
      (risk_prob : Option ℚ) (chart_img : Option (List EventOut))
      (risk_level : String) (risk_color : String) : DashboardResponse
deriving DecidableEq

/-- Whether a response is the full dashboard fragment (as opposed to one of the
two message-only fragments). -/
def DashboardResponse.isDashboard : DashboardResponse → Bool
  | .dashboard _ _ _ _ _ _ _ => true
  | _ => false

/-- Python's `int(str)`: after stripping surrounding whitespace, an optional
sign followed by digits, with single underscores allowed between digits.
Helper: digits after the first, accumulating onto `acc`. -/
def pyDigitsAux (acc : Nat) : List Char → Option Nat
  | [] => some acc
  | c :: rest =>
    if c.isDigit then pyDigitsAux (acc * 10 + (c.toNat - 48)) rest
    else if c == '_' then
      match rest with
      | [] => none
      | d :: rest2 =>
        if d.isDigit then pyDigitsAux (acc * 10 + (d.toNat - 48)) rest2 else none
    else none

/-- A nonempty digit run (underscores only between digits). -/
def pyDigits (cs : List Char) : Option Nat :=
  match cs with
  | [] => none
  | c :: rest => if c.isDigit then pyDigitsAux (c.toNat - 48) rest else none

/-- `int(employee_id)` as used by the Flask handler: `some n` when Python's
`int()` succeeds, `none` when it raises `ValueError`. -/
def pyInt (s : String) : Option Int :=
  let cs := ((s.toList.dropWhile Char.isWhitespace).reverse.dropWhile Char.isWhitespace).reverse
  match cs with
  | '+' :: rest => (pyDigits rest).map (fun n => (n : Int))
  | '-' :: rest => (pyDigits rest).map (fun n => -(n : Int))
  | _ => (pyDigits cs).map (fun n => (n : Int))

/-- The Flask `employee_dashboard` handler of `main.py`. `employee_id_param` is
`request.args.get('employee_id')` (`none` when absent). The handler returns the
"please select" fragment when the parameter is absent, empty, or fails `int()`;
the "not found" fragment when `get_employee_summary` is `None`; otherwise the
full dashboard built from notes, risk prediction, the 30-day chart and the risk
assessment. -/
def employee_dashboard (model : Option Model) (db : Database) (today : Int)
    (employee_id_param : Option String) : DashboardResponse :=
  match employee_id_param with
  | none => .pleaseSelect
  | some s =>
    if s = "" then .pleaseSelect
    else
      match pyInt s with
      | none => .pleaseSelect
      | some employee_id =>
        match get_employee_summary db employee_id with
        | none => .notFound employee_id
        | some summary =>
          let notes := get_employee_notes db employee_id
          let risk_prob := predict_recruitment_risk model db employee_id
          let chart_img := create_performance_chart db today employee_id 30
          let rl := riskAssessment risk_prob
          .dashboard employee_id summary notes risk_prob chart_img rl.1 rl.2

/-- An HTTP route: method and path. -/
structure Route where
  method : String
  path : String
deriving DecidableEq

/-- The routes registered by the Flask app (`main.py`): `@app.route('/')` and
`@app.route('/employee_dashboard')`, both without a `methods` argument, so both
accept GET only. -/
def flask_routes : List Route :=
  [{ method := "GET", path := "/" }, { method := "GET", path := "/employee_dashboard" }]

/-- The routes registered by the FastHTML app (`dashboard.py`): `@app.get("/")`
and `@app.post("/employee_dashboard")`. -/
def fasthtml_routes : List Route :=
  [{ method := "GET", path := "/" }, { method := "POST", path := "/employee_dashboard" }]

/-- The possible outcomes of the FastHTML `employee_dashboard` handler of
`dashboard.py`. Unlike the Flask app, its `get_employee_summary` returns
`df.iloc[0]` — a pandas Series — rather than a dict, so the guard
`if not summary:` calls `Series.__bool__`, which raises
`ValueError("The truth value of a Series is ambiguous")` for every Series.
The handler therefore has three outcomes: the two message fragments, or an
uncaught `ValueError` that the framework turns into an error response. -/
inductive FastHtmlResult where
  | pleaseSelect : FastHtmlResult
  | notFound : FastHtmlResult
  | raisedValueError : FastHtmlResult
deriving DecidableEq

/-- The FastHTML `employee_dashboard(employee_id: int)` handler of
`dashboard.py`: `if not employee_id:` makes 0 falsy → "Please select an
employee"; a `None` summary (`not None` is truthy) → "Employee not found";
a present summary is a pandas Series, so `if not summary:` raises `ValueError`
before notes, inference, chart or fragment construction are reached. -/
def fasthtml_employee_dashboard (db : Database) (employee_id : Int) : FastHtmlResult :=
  if employee_id == 0 then .pleaseSelect
  else
    match get_employee_summary db employee_id with
    | none => .notFound
    | some _ => .raisedValueError

/-! ### Concrete databases used by witnesses and counterexamples -/

/-- A database with one employee (id 1) on team 1, two event rows and six notes. -/
def exDb : Database :=
  { employee := [{ id := 1, name := "Alice", team_id := 1 }]
    team := [{ id := 1, name := "TeamA", shift := "Day", manager := "Bob" }]
    employee_events :=
      [{ employee_id := 1, event_date := 10, positive_events := 3, negative_events := 1 },
       { employee_id := 1, event_date := 20, positive_events := 2, negative_events := 2 }]
    notes :=
      [{ employee_id := 1, note := "n1", created_at := 1 },
       { employee_id := 1, note := "n2", created_at := 2 },
       { employee_id := 1, note := "n3", created_at := 3 },
       { employee_id := 1, note := "n4", created_at := 4 },
       { employee_id := 1, note := "n5", created_at := 5 },
       { employee_id := 1, note := "n6", created_at := 6 }] }

/-- The summary row `get_employee_summary` produces on `exDb` for employee 1. -/
def sExample : Summary :=
  { name := "Alice", team_name := "TeamA", shift := "Day", manager := "Bob"
    total_positive := 5, total_negative := 3, avg_positive := 5/2, avg_negative := 3/2 }

/-- A database whose single employee (id 1) has no `employee_events` rows. -/
def exDbNoEvents : Database :=
  { employee := [{ id := 1, name := "Alice", team_id := 1 }]
    team := [{ id := 1, name := "TeamA", shift := "Day", manager := "Bob" }]
    employee_events := []
    notes := [] }

/-- A database whose single employee (id 1) has one event row dated day 0,
outside the 30-day window ending at day 100. -/
def exDbOldEvent : Database :=
  { employee := [{ id := 1, name := "Alice", team_id := 1 }]
    team := [{ id := 1, name := "TeamA", shift := "Day", manager := "Bob" }]
    employee_events :=
      [{ employee_id := 1, event_date := 0, positive_events := 5, negative_events := 2 }]
    notes := [] }

/-- The empty database. -/
def exDbEmpty : Database :=
  { employee := [], team := [], employee_events := [], notes := [] }

/-- A concrete classifier assigning probability 1/2 to every input. -/
def exModel : Model := fun _ _ => 1/2

/-! ### Ordering instances for the sort relations used by the SQL ORDER BYs -/

instance : IsTotal EventOut (fun a b => a.event_date ≤ b.event_date) :=
  ⟨fun a b => le_total a.event_date b.event_date⟩

instance : IsTrans EventOut (fun a b => a.event_date ≤ b.event_date) :=
  ⟨fun _ _ _ h1 h2 => le_trans h1 h2⟩

instance : IsTotal NoteOut (fun a b => b.created_at ≤ a.created_at) :=
  ⟨fun a b => le_total b.created_at a.created_at⟩

instance : IsTrans NoteOut (fun a b => b.created_at ≤ a.created_at) :=
  ⟨fun _ _ _ h1 h2 => le_trans h2 h1⟩

/-! ### Helper lemmas shared between claims -/

/-- The summary aggregates — totals AND averages — range over the employee's
event rows with no date window. -/
theorem get_employee_summary_fields (db : Database) (id : Int) (s : Summary)
    (h : get_employee_summary db id = some s) :
    s.total_positive =
      ((db.employee_events.filter (fun e => e.employee_id == id)).map
        (fun e => e.positive_events)).sum ∧
    s.total_negative =
      ((db.employee_events.filter (fun e => e.employee_id == id)).map
        (fun e => e.negative_events)).sum ∧
    s.avg_positive =
      ((db.employee_events.filter (fun e => e.employee_id == id)).map
        (fun e => (e.positive_events : ℚ))).sum /
        ((db.employee_events.filter (fun e => e.employee_id == id)).length : ℚ) ∧
    s.avg_negative =
      ((db.employee_events.filter (fun e => e.employee_id == id)).map
        (fun e => (e.negative_events : ℚ))).sum /
        ((db.employee_events.filter (fun e => e.employee_id == id)).length : ℚ) := by
  unfold get_employee_summary at h
  split at h
  · exact Option.noConfusion h
  · split at h
    · exact Option.noConfusion h
    · split at h
      · exact Option.noConfusion h
      · rw [Option.some.injEq] at h
        subst h
        exact ⟨rfl, rfl, rfl, rfl⟩

/-- If the employee has no event rows at all, the summary (INNER JOIN with
`employee_events`) is `None`. -/
theorem summary_none_of_no_events (db : Database) (id : Int)
    (hev : db.employee_events.filter (fun e => e.employee_id == id) = []) :
    get_employee_summary db id = none := by
  unfold get_employee_summary
  split
  · rfl
  · split
    · rfl
    · rw [hev]
      simp

/-- If no employee row has the requested id, the summary is `None`. -/
theorem summary_none_of_no_employee (db : Database) (id : Int)
    (h : ∀ e ∈ db.employee, e.id ≠ id) :
    get_employee_summary db id = none := by
  unfold get_employee_summary
  have : db.employee.find? (fun e => e.id == id) = none := by
    rw [List.find?_eq_none]
    intro e he
    simpa using h e he
  rw [this]

/-- `pyInt ""` fails (Python `int('')` raises `ValueError`). -/
theorem pyInt_empty : pyInt "" = none := rfl

/-- Whenever the summary is `None` and the parameter parses, the Flask handler
returns the "Employee not found" fragment. -/
theorem employee_dashboard_of_summary_none (model : Option Model) (db : Database)
    (today : Int) (s : String) (id : Int)
    (hp : pyInt s = some id) (hsum : get_employee_summary db id = none) :
    employee_dashboard model db today (some s) = .notFound id := by
  have hse : s ≠ "" := by
    intro hs
    rw [hs, pyInt_empty] at hp
    exact Option.noConfusion hp
  unfold employee_dashboard
  simp [hse, hp, hsum]

/-- Every row of the windowed event query has `net_events = positive - negative`. -/
theorem net_events_eq (db : Database) (today id days : Int) (r : EventOut)
    (hr : r ∈ get_employee_events db today id days) :
    r.net_events = r.positive_events - r.negative_events := by
  rw [get_employee_events, List.mem_insertionSort] at hr
  obtain ⟨e, -, rfl⟩ := List.mem_map.mp hr
  rfl

/-! ### Claim theorems -/

/-- C1: for every probability p in [0,1], the handler's risk tier is "High"
exactly when p > 0.7, "Medium" exactly when 0.4 < p ≤ 0.7, and "Low" exactly
when p ≤ 0.4; both thresholds are exclusive lower bounds, so p = 0.4 maps to
Low and p = 0.7 maps to Medium. -/
theorem risk_tier_partition (p : ℚ) (h0 : 0 ≤ p) (h1 : p ≤ 1) :
    ((riskAssessment (some p)).1 = "High" ↔ 7/10 < p) ∧
    ((riskAssessment (some p)).1 = "Medium" ↔ 4/10 < p ∧ p ≤ 7/10) ∧
    ((riskAssessment (some p)).1 = "Low" ↔ p ≤ 4/10) ∧
    (riskAssessment (some ((4:ℚ)/10))).1 = "Low" ∧
    (riskAssessment (some ((7:ℚ)/10))).1 = "Medium" := by
  have e4 : (riskAssessment (some ((4:ℚ)/10))).1 = "Low" := by
    have hz : ((4:ℚ)/10) ≠ 0 := by norm_num
    have ha : ¬ ((4:ℚ)/10 > 7/10) := by norm_num
    have hb : ¬ ((4:ℚ)/10 > 4/10) := by norm_num
    simp [riskAssessment, hz, ha, hb]
  have e7 : (riskAssessment (some ((7:ℚ)/10))).1 = "Medium" := by
    have hz : ((7:ℚ)/10) ≠ 0 := by norm_num
    have ha : ¬ ((7:ℚ)/10 > 7/10) := by norm_num
    have hb : ((7:ℚ)/10 > 4/10) := by norm_num
    simp [riskAssessment, hz, ha, hb]
  by_cases h7 : (7:ℚ)/10 < p
  · have hz : p ≠ 0 := ne_of_gt (lt_trans (by norm_num) h7)
    have hr : riskAssessment (some p) = ("High", "danger") := by
      simp [riskAssessment, hz, h7]
    rw [hr]
    refine ⟨⟨fun _ => h7, fun _ => rfl⟩, ?_, ?_, e4, e7⟩
    · exact ⟨fun hc => absurd hc (by decide), fun hc => absurd h7 (not_lt.mpr hc.2)⟩
    · exact ⟨fun hc => absurd hc (by decide),
             fun hc => absurd h7 (not_lt.mpr (hc.trans (by norm_num)))⟩
  · by_cases h4 : (4:ℚ)/10 < p
    · have hz : p ≠ 0 := ne_of_gt (lt_trans (by norm_num) h4)
      have hr : riskAssessment (some p) = ("Medium", "warning") := by
        simp [riskAssessment, hz, h7, h4]
      rw [hr]
      refine ⟨?_, ?_, ?_, e4, e7⟩
      · exact ⟨fun hc => absurd hc (by decide), fun hc => absurd hc h7⟩
      · exact ⟨fun _ => ⟨h4, not_lt.mp h7⟩, fun _ => rfl⟩
      · exact ⟨fun hc => absurd hc (by decide), fun hc => absurd h4 (not_lt.mpr hc)⟩
    · have hr : riskAssessment (some p) = ("Low", "success") := by
        by_cases hz : p = 0
        · simp [riskAssessment, hz]
        · simp [riskAssessment, hz, h7, h4]
      rw [hr]
      refine ⟨?_, ?_, ?_, e4, e7⟩
      · exact ⟨fun hc => absurd hc (by decide), fun hc => absurd hc h7⟩
      · exact ⟨fun hc => absurd hc (by decide), fun hc => absurd hc.1 h4⟩
      · exact ⟨fun _ => not_lt.mp h4, fun _ => rfl⟩

/-- Witness for C1 at p = 1/2: the Medium characterization, with both
hypotheses 0 ≤ 1/2 and 1/2 ≤ 1 discharged. -/
theorem risk_tier_partition_witness :
    (riskAssessment (some ((1:ℚ)/2))).1 = "Medium" ↔
      4/10 < ((1:ℚ)/2) ∧ ((1:ℚ)/2) ≤ 7/10 :=
  (risk_tier_partition ((1:ℚ)/2) (by norm_num) (by norm_num)).2.1

/-- C2 counterexample: in `exDbNoEvents` employee 1 exists in the `employee`
table but has zero `employee_events` rows, and the handler returns the
"Employee not found" fragment — a different branch from the claimed no-data
dashboard rendering (it is not a dashboard fragment at all). -/
theorem zero_events_counterexample :
    (∃ e ∈ exDbNoEvents.employee, e.id = 1) ∧
    exDbNoEvents.employee_events = [] ∧
    employee_dashboard none exDbNoEvents 0 (some "1") = DashboardResponse.notFound 1 ∧
    (employee_dashboard none exDbNoEvents 0 (some "1")).isDashboard = false := by
  decide

/-- C2 (amended): for every employee id with zero `employee_events` rows —
whether or not the employee exists in the `employee` table — the handler
completes normally with the "Employee not found" fragment (no chart, no
exception): the summary's INNER JOIN with `employee_events` yields an empty
result, so the not-found branch is taken. -/
theorem zero_events_not_found (model : Option Model) (db : Database) (today : Int)
    (s : String) (id : Int) (hp : pyInt s = some id)
    (hev : db.employee_events.filter (fun e => e.employee_id == id) = []) :
    employee_dashboard model db today (some s) = DashboardResponse.notFound id :=
  employee_dashboard_of_summary_none model db today s id hp
    (summary_none_of_no_events db id hev)

/-- Witness for C2 (amended) on `exDbNoEvents` with parameter "1". -/
theorem zero_events_not_found_witness :
    employee_dashboard none exDbNoEvents 0 (some "1") = DashboardResponse.notFound 1 :=
  zero_events_not_found none exDbNoEvents 0 "1" 1 (by decide) (by decide)

/-- C3 counterexample: in `exDbOldEvent` employee 1 has one event row dated
outside the trailing 30-day window ending at day 100; the windowed event query
is empty, yet the dashboard's summary totals still count that row — the
displayed sums do NOT aggregate only rows inside the trailing window. -/
theorem window_aggregation_counterexample :
    get_employee_events exDbOldEvent 100 1 30 = [] ∧
    (get_employee_summary exDbOldEvent 1).map Summary.total_positive = some 5 ∧
    ¬ ((get_employee_summary exDbOldEvent 1).map Summary.total_positive =
        some (((get_employee_events exDbOldEvent 100 1 30).map
          (fun r => r.positive_events)).sum)) := by
  decide

/-- C3 (amended): the per-date rows feeding the chart are exactly the
employee's event rows with date inside the trailing `days`-day window (a
permutation of them, ordered by `event_date`), while the summary sums AND
averages shown on the dashboard aggregate ALL of the employee's event rows
with no date window. -/
theorem event_aggregation_window (db : Database) (today id days : Int) :
    List.Perm (get_employee_events db today id days)
      ((db.employee_events.filter
          (fun e => e.employee_id == id && decide (today - days ≤ e.event_date))).map
        (fun e =>
          { event_date := e.event_date
            positive_events := e.positive_events
            negative_events := e.negative_events
            net_events := e.positive_events - e.negative_events })) ∧
    List.Sorted (fun a b : EventOut => a.event_date ≤ b.event_date)
      (get_employee_events db today id days) ∧
    ∀ s : Summary, get_employee_summary db id = some s →
      s.total_positive =
        ((db.employee_events.filter (fun e => e.employee_id == id)).map
          (fun e => e.positive_events)).sum ∧
      s.total_negative =
        ((db.employee_events.filter (fun e => e.employee_id == id)).map
          (fun e => e.negative_events)).sum ∧
      s.avg_positive =
        ((db.employee_events.filter (fun e => e.employee_id == id)).map
          (fun e => (e.positive_events : ℚ))).sum /
          ((db.employee_events.filter (fun e => e.employee_id == id)).length : ℚ) ∧
      s.avg_negative =
        ((db.employee_events.filter (fun e => e.employee_id == id)).map
          (fun e => (e.negative_events : ℚ))).sum /
          ((db.employee_events.filter (fun e => e.employee_id == id)).length : ℚ) := by
  refine ⟨List.perm_insertionSort _ _, List.sorted_insertionSort _ _, ?_⟩
  intro s hs
  exact get_employee_summary_fields db id s hs

/-- Witness for C3 (amended) on `exDbOldEvent`: the summary totals include the
out-of-window row (total 5) even though the windowed query is empty. -/
theorem event_aggregation_window_witness :
    get_employee_events exDbOldEvent 100 1 30 = [] ∧
    (Option.get (get_employee_summary exDbOldEvent 1)
      (of_decide_eq_true rfl)).total_positive = 5 := by
  have hs : (get_employee_summary exDbOldEvent 1).isSome := of_decide_eq_true rfl
  refine ⟨by decide, ?_⟩
  have h := ((event_aggregation_window exDbOldEvent 100 1 30).2.2
    (Option.get (get_employee_summary exDbOldEvent 1) hs)
    (Option.some_get hs).symm).1
  rw [h]
  decide

/-- C4: whenever `get_employee_summary` returns a row, its totals equal the
sums of `positive_events` / `negative_events` over exactly the
`employee_events` rows of that employee; and every row returned by
`get_employee_events` has `net_events = positive_events - negative_events`. -/
theorem summary_totals_correct (db : Database) (id : Int) (s : Summary)
    (h : get_employee_summary db id = some s) :
    s.total_positive =
      ((db.employee_events.filter (fun e => e.employee_id == id)).map
        (fun e => e.positive_events)).sum ∧
    s.total_negative =
      ((db.employee_events.filter (fun e => e.employee_id == id)).map
        (fun e => e.negative_events)).sum ∧
    ∀ (today days : Int) (r : EventOut), r ∈ get_employee_events db today id days →
      r.net_events = r.positive_events - r.negative_events := by
  obtain ⟨h1, h2, -, -⟩ := get_employee_summary_fields db id s h
  exact ⟨h1, h2, fun today days r hr => net_events_eq db today id days r hr⟩

/-- Witness for C4 on `exDb` (two event rows, totals 5 and 3). -/
theorem summary_totals_correct_witness :
    (Option.get (get_employee_summary exDb 1) (of_decide_eq_true rfl)).total_positive = 5 ∧
    (Option.get (get_employee_summary exDb 1) (of_decide_eq_true rfl)).total_negative = 3 := by
  have hs : (get_employee_summary exDb 1).isSome := of_decide_eq_true rfl
  have h := summary_totals_correct exDb 1
    (Option.get (get_employee_summary exDb 1) hs) (Option.some_get hs).symm
  constructor
  · rw [h.1]; decide
  · rw [h.2.1]; decide

/-- C5: with the model file absent (`load_model()` returned `None`) or the
summary absent, inference is disabled without an error: `predict_recruitment_risk`
returns `None`, the template renders the probability as "N/A", and the risk tier
defaults to Low ("success" badge). -/
theorem missing_model_inference_disabled (db : Database) (id : Int) (m : Model) :
    predict_recruitment_risk none db id = none ∧
    (get_employee_summary db id = none → predict_recruitment_risk (some m) db id = none) ∧
    probDisplay (predict_recruitment_risk none db id) = "N/A" ∧
    riskAssessment (predict_recruitment_risk none db id) = ("Low", "success") := by
  refine ⟨rfl, ?_, rfl, rfl⟩
  intro h
  unfold predict_recruitment_risk
  rw [h]

/-- Witness for C5 on the empty database: the absent-summary hypothesis is
discharged by evaluation. -/
theorem missing_model_inference_disabled_witness :
    predict_recruitment_risk (some exModel) exDbEmpty 1 = none ∧
    probDisplay (predict_recruitment_risk none exDbEmpty 1) = "N/A" :=
  ⟨(missing_model_inference_disabled exDbEmpty 1 exModel).2.1 (by decide),
   (missing_model_inference_disabled exDbEmpty 1 exModel).2.2.1⟩

/-- C6: for every employee_id matching no row of the `employee` table, the
handler returns the "Employee not found" fragment. The `notFound` branch
returns before notes retrieval, inference and chart creation, so the response
carries none of that data (`DashboardResponse.notFound` has no such fields). -/
theorem unknown_employee_not_found (model : Option Model) (db : Database)
    (today : Int) (s : String) (id : Int) (hp : pyInt s = some id)
    (h : ∀ e ∈ db.employee, e.id ≠ id) :
    employee_dashboard model db today (some s) = DashboardResponse.notFound id :=
  employee_dashboard_of_summary_none model db today s id hp
    (summary_none_of_no_employee db id h)

/-- Witness for C6: id 2 matches no employee of `exDbNoEvents`. -/
theorem unknown_employee_not_found_witness :
    employee_dashboard none exDbNoEvents 0 (some "2") = DashboardResponse.notFound 2 :=
  unknown_employee_not_found none exDbNoEvents 0 "2" 2 (by decide) (by decide)

/-- C7 counterexample: no single front end accepts both methods — the Flask
app registers `/employee_dashboard` without a `methods` argument (GET only),
and the FastHTML app registers it with `@app.post` (POST only). -/
theorem dashboard_route_methods_counterexample :
    ({ method := "POST", path := "/employee_dashboard" } : Route) ∉ flask_routes ∧
    ({ method := "GET", path := "/employee_dashboard" } : Route) ∉ fasthtml_routes := by
  decide

/-- C7 (amended): each front end exposes `/employee_dashboard` under exactly one
method — GET in the Flask app, POST in the FastHTML app. Only the Flask handler,
given an `employee_id` parameter naming an employee with a summary, returns the
dashboard fragment for in-place update; the FastHTML handler never does — for
every employee with a summary its `if not summary:` truthiness test on the
pandas Series raises `ValueError`, so only its please-select and not-found
branches return normally. -/
theorem dashboard_route_single_method :
    ({ method := "GET", path := "/employee_dashboard" } : Route) ∈ flask_routes ∧
    ({ method := "POST", path := "/employee_dashboard" } : Route) ∈ fasthtml_routes ∧
    ({ method := "POST", path := "/employee_dashboard" } : Route) ∉ flask_routes ∧
    ({ method := "GET", path := "/employee_dashboard" } : Route) ∉ fasthtml_routes ∧
    (∀ (model : Option Model) (db : Database) (today : Int) (s : String) (id : Int),
      pyInt s = some id → (get_employee_summary db id).isSome →
      (employee_dashboard model db today (some s)).isDashboard = true) ∧
    (∀ (db : Database) (id : Int), id ≠ 0 → (get_employee_summary db id).isSome →
      fasthtml_employee_dashboard db id = FastHtmlResult.raisedValueError) := by
  refine ⟨by decide, by decide, by decide, by decide, ?_, ?_⟩
  · intro model db today s id hp hsum
    obtain ⟨summary, hsummary⟩ := Option.isSome_iff_exists.mp hsum
    have hse : s ≠ "" := by
      intro hs
      rw [hs, pyInt_empty] at hp
      exact Option.noConfusion hp
    unfold employee_dashboard
    simp [hse, hp, hsummary, DashboardResponse.isDashboard]
  · intro db id h0 hsum
    obtain ⟨summary, hsummary⟩ := Option.isSome_iff_exists.mp hsum
    unfold fasthtml_employee_dashboard
    rw [if_neg (by simpa using h0), hsummary]

/-- Witness for C7 (amended): at the concrete database `exDb`, the Flask
handler returns the dashboard fragment while the FastHTML handler raises. -/
theorem dashboard_route_single_method_witness :
    (employee_dashboard (some exModel) exDb 100 (some "1")).isDashboard = true ∧
    fasthtml_employee_dashboard exDb 1 = FastHtmlResult.raisedValueError :=
  ⟨dashboard_route_single_method.2.2.2.2.1 (some exModel) exDb 100 "1" 1
     (by decide) (by decide),
   dashboard_route_single_method.2.2.2.2.2 exDb 1 (by decide) (by decide)⟩

/-- C8: a predicted probability of exactly 0.0 is falsy in Python, so the
template renders "N/A" — the same output as when no model is present — instead
of "0.0%", and the tier shown is the Low default. -/
theorem zero_probability_displays_na :
    probDisplay (some (0 : ℚ)) = "N/A" ∧
    probDisplay (some (0 : ℚ)) = probDisplay none ∧
    probDisplay (some (0 : ℚ)) ≠ "0.0%" ∧
    riskAssessment (some (0 : ℚ)) = ("Low", "success") := by
  have h0 : probDisplay (some (0 : ℚ)) = "N/A" := by
    unfold probDisplay
    simp
  refine ⟨h0, by rw [h0]; rfl, by rw [h0]; decide, ?_⟩
  unfold riskAssessment
  simp

/-- C9: a `/employee_dashboard` request whose employee_id fails Python's
`int()` is handled exactly like a request with no employee_id at all: the
handler returns the "Please select an employee" fragment before any database
access (that branch precedes every query call), and no exception escapes. -/
theorem invalid_employee_id_please_select (model : Option Model) (db : Database)
    (today : Int) (s : String) (h : pyInt s = none) :
    employee_dashboard model db today (some s) = DashboardResponse.pleaseSelect ∧
    employee_dashboard model db today none = DashboardResponse.pleaseSelect := by
  constructor
  · by_cases hse : s = ""
    · rw [hse]
      rfl
    · unfold employee_dashboard
      simp [hse, h]
  · rfl

/-- Witness for C9 at the unparseable parameter "abc". -/
theorem invalid_employee_id_please_select_witness :
    employee_dashboard none exDbEmpty 0 (some "abc") = DashboardResponse.pleaseSelect :=
  (invalid_employee_id_please_select none exDbEmpty 0 "abc" (by decide)).1

/-- C10: the dashboard shows at most the first 5 notes of `get_employee_notes`,
and that list is ordered by `created_at` descending, so every displayed note is
at least as recent as every note of that employee that is not displayed. -/
theorem notes_top5_most_recent (db : Database) (id : Int) :
    displayedNotes (get_employee_notes db id) = (get_employee_notes db id).take 5 ∧
    (displayedNotes (get_employee_notes db id)).length ≤ 5 ∧
    List.Sorted (fun a b : NoteOut => b.created_at ≤ a.created_at)
      (get_employee_notes db id) ∧
    ∀ a ∈ displayedNotes (get_employee_notes db id),
      ∀ b ∈ (get_employee_notes db id).drop 5, b.created_at ≤ a.created_at := by
  have hsorted : List.Sorted (fun a b : NoteOut => b.created_at ≤ a.created_at)
      (get_employee_notes db id) := List.sorted_insertionSort _ _
  refine ⟨rfl, ?_, hsorted, ?_⟩
  · simp only [displayedNotes, List.length_take]
    exact min_le_left _ _
  · intro a ha b hb
    have ha' : a ∈ (get_employee_notes db id).take 5 := ha
    have hp : List.Pairwise (fun a b : NoteOut => b.created_at ≤ a.created_at)
        ((get_employee_notes db id).take 5 ++ (get_employee_notes db id).drop 5) := by
      rw [List.take_append_drop]
      exact hsorted
    exact (List.pairwise_append.mp hp).2.2 a ha' b hb

/-- Witness for C10 on `exDb` (six notes): the displayed note from day 6 is more
recent than the undisplayed note from day 1. -/
theorem notes_top5_most_recent_witness :
    ({ note := "n1", created_at := 1 } : NoteOut).created_at ≤
      ({ note := "n6", created_at := 6 } : NoteOut).created_at :=
  (notes_top5_most_recent exDb 1).2.2.2
    { note := "n6", created_at := 6 } (by decide)
    { note := "n1", created_at := 1 } (by decide)
